import Mathlib

/-!
Shallow embedding of the qmt data-access layer: three backend adapters
(sqlite.py, duck.py, pgsql.py) sharing a pickled metadata cache, a
primary-key discovery routine, CREATE TABLE synthesis from a pandas
DataFrame, and dialect-specific upsert statement construction, together
with the DatabaseManager facade (datamanager.py) and a relational model
of the engine-side semantics of the two statement shapes the upsert
builders emit.
-/

/-- A cell value in the relational model of a backend table. -/
inductive Value where
  | null : Value
  | int : Int → Value
  | str : String → Value
deriving DecidableEq, Repr

/-- Model of a pandas column dtype as the code observes it: the code only
compares the dtype against the literals int64 and float64; every other
dtype (object, int32, and so on) falls into the final else branch. -/
inductive Dtype where
  | int64 : Dtype
  | float64 : Dtype
  | int32 : Dtype
  | object : Dtype
deriving DecidableEq, Repr

/-- The facets of a pandas DataFrame the code reads: the index level
names (df.index.names), the data columns with their dtypes, and the
number of rows (the code treats df as empty when it has no rows). -/
structure DataFrame where
  index_names : List (Option String)
  columns : List (String × Dtype)
  nrows : Nat
deriving DecidableEq, Repr

/-- Names of the data columns (df.columns). -/
def DataFrame.col_names (df : DataFrame) : List String :=
  df.columns.map Prod.fst

/-- Column list of df.reset_index(): the index levels come first; an
unnamed single level is exposed as the column named index, unnamed
levels of a multi index as level_i; the data columns follow. -/
def DataFrame.reset_index_cols (df : DataFrame) : List String :=
  (if df.index_names.length = 1 then
    df.index_names.map (fun n => n.getD "index")
  else
    df.index_names.mapIdx (fun i n => n.getD ("level_" ++ toString i))) ++ df.col_names

/-- Key columns a batch designates: the non-null index level names,
mirroring the comprehension pk for pk in df.index.names if pk is not
None. -/
def DataFrame.primary_keys (df : DataFrame) : List String :=
  df.index_names.filterMap id

/-- Model of pd.DataFrame([data]) for a dict input: one row carrying the
dict keys as data columns, indexed by the default RangeIndex, whose
single level has no name. Dict values are abstracted to the dtypes
pandas infers for them, the only facet the code reads from them when
synthesizing a table. -/
def DataFrame.from_dict (data : List (String × Dtype)) : DataFrame :=
  { index_names := [none], columns := data, nrows := 1 }

/-- One entry of the metadata cache: the per-table dict whose keys the
code uses are primary_key and not_null_columns. An absent field models
an absent dict key. -/
structure TableMetadata where
  primary_key : Option (List String) := none
  not_null_columns : Option (List String) := none
deriving DecidableEq, Repr

/-- The in-memory cache self.cache: a mapping from table name to its
metadata dict, modelled as an association list. -/
abbrev MetadataCache := List (String × TableMetadata)

/-- Model of the pickled cache file contents: pickle round-trips, so a
well-formed blob is modelled by the cache value it encodes, and corrupt
models a blob that pickle.load rejects. -/
inductive Blob where
  | mk : MetadataCache → Blob
  | corrupt : Blob
deriving DecidableEq, Repr

/-- The cache-hit test at the top of every get_primary_key variant:
table_name in self.cache and then primary_key in that per-table dict. -/
def cache_pk_hit (cache : MetadataCache) (table_name : String) : Option (List String) :=
  match cache.lookup table_name with
  | some md => md.primary_key
  | none => none

/-- Caching step of get_primary_key (sqlite.py lines 72 to 74): create
the per-table dict when absent, then set its primary_key entry. -/
def MetadataCache.put_pk (cache : MetadataCache) (table_name : String)
    (pks : List String) : MetadataCache :=
  if (cache.lookup table_name).isSome then
    cache.map fun e =>
      if e.1 = table_name then (e.1, { e.2 with primary_key := some pks }) else e
  else
    cache ++ [(table_name, { primary_key := some pks })]

/-- Error pickle.load raises on a blob it cannot deserialize. -/
inductive PickleError where
  | unpickle : PickleError
deriving DecidableEq, Repr

/-- Models SQLiteDB._load_cache (sqlite.py lines 32 to 39): returns the
empty dict when the cache file does not exist; otherwise pickle.load
runs with no handler around it, so a blob that fails to deserialize
raises out of the method instead of yielding an empty cache. -/
def SQLiteDB.load_cache (file : Option Blob) : Except PickleError MetadataCache :=
  match file with
  | none => .ok []
  | some (.mk c) => .ok c
  | some .corrupt => .error .unpickle

/-- Observable outcome of SQLiteDB.__init__: which attributes the
constructor managed to assign. cache = none models the cache attribute
never being assigned because an exception fired first. -/
structure SQLiteDBInstance where
  cache : Option MetadataCache
  connected : Bool
deriving DecidableEq, Repr

/-- Models SQLiteDB.__init__ after the db-file creation step (sqlite.py
lines 20 to 27): one try block assigns the cache file name, loads the
cache and then connects; any exception is caught, printed and
swallowed, leaving only the attributes assigned before it fired. -/
def SQLiteDB.init (cache_file : Option Blob) (connect_ok : Bool) : SQLiteDBInstance :=
  match SQLiteDB.load_cache cache_file with
  | .error _ => { cache := none, connected := false }
  | .ok c => { cache := some c, connected := connect_ok }

/-- A statement submitted to the native cursor, tagged by the call site
that submitted it; the payload is the statement text. -/
inductive NativeCall where
  | introspect : String → NativeCall
  | createTable : String → NativeCall
  | insert : String → NativeCall
  | raw : String → NativeCall
deriving DecidableEq, Repr

/-- Whether a native call came from an upsert insert submission. -/
def NativeCall.isInsert : NativeCall → Bool
  | .insert _ => true
  | _ => false

/-- Whether a native call came from a CREATE TABLE submission. -/
def NativeCall.isCreate : NativeCall → Bool
  | .createTable _ => true
  | _ => false

/-- State of one backend adapter: the in-memory cache, the persisted
cache file, the live catalog (primary-key columns per existing table; a
table absent from the catalog introspects to no rows, hence to an empty
key column list), the connection flag (false models a construction whose
connect step failed, leaving no cursor attribute) and the trace of
statements submitted to the native engine. -/
structure DBState where
  connected : Bool
  cache : MetadataCache
  cache_file : Option Blob
  catalog : List (String × List String)
  executed : List NativeCall
deriving DecidableEq, Repr

/-- Python truthiness of the value get_primary_key returns: None and the
empty list are both falsy, a nonempty list is truthy. -/
def pk_falsy : Option (List String) → Bool
  | none => true
  | some [] => true
  | some (_ :: _) => false

/-- Comma-space join, mirroring the join call used throughout. -/
def joinComma (l : List String) : String :=
  String.intercalate ", " l

/-- The question-mark placeholder list for n parameters. -/
def placeholders (n : Nat) : String :=
  joinComma (List.replicate n "?")

/-- The introspection query of SQLiteDB._get_primary_key (line 65). -/
def SQLiteDB.pragma_query (table_name : String) : String :=
  "PRAGMA table_info(" ++ table_name ++ ");"

/-- Models SQLiteDB._get_primary_key (sqlite.py lines 56 to 79): return
the cached answer when the per-table dict carries a primary_key entry;
otherwise introspect the catalog, cache the discovered key column list
(an empty list included), persist the whole cache and return the list;
with no cursor the introspection raises, the handler prints and the
method returns None with nothing cached. -/
def SQLiteDB.get_primary_key (s : DBState) (table_name : String) :
    Option (List String) × DBState :=
  match cache_pk_hit s.cache table_name with
  | some pks => (some pks, s)
  | none =>
    if s.connected then
      let conflict_columns := (s.catalog.lookup table_name).getD []
      let cache := s.cache.put_pk table_name conflict_columns
      (some conflict_columns,
        { s with cache := cache, cache_file := some (.mk cache),
                 executed := s.executed ++ [.introspect (SQLiteDB.pragma_query table_name)] })
    else (none, s)

/-- Dialect type mapping of SQLiteDB._create_table_from_dataframe. -/
def sqlite_col_type : Dtype → String
  | .int64 => "INTEGER"
  | .float64 => "REAL"
  | _ => "TEXT"

/-- Models SQLiteDB._create_table_from_dataframe (sqlite.py lines 81 to
113) as the statement it builds: none when the batch designates no key
columns (the no-index refusal), otherwise the CREATE TABLE text with
the typed data columns, the designated key columns missing from the
data appended as TEXT columns, and the trailing PRIMARY KEY clause. -/
def SQLiteDB.create_table_query (table_name : String) (df : DataFrame) : Option String :=
  let columns_with_types := df.columns.map fun c => c.1 ++ " " ++ sqlite_col_type c.2
  let primary_keys := df.primary_keys
  if primary_keys = [] then none
  else
    let columns_with_types := columns_with_types ++
      ((primary_keys.filter fun pk => ! df.col_names.contains pk).map fun pk => pk ++ " TEXT")
    some ("CREATE TABLE " ++ table_name ++ " (" ++ joinComma columns_with_types ++
      ", PRIMARY KEY (" ++ joinComma primary_keys ++ "));")

/-- State-level effect of SQLiteDB._create_table_from_dataframe: the
refusal submits nothing; otherwise the CREATE TABLE statement is
submitted, and with no cursor the submission raises and is caught. -/
def SQLiteDB.create_table (s : DBState) (table_name : String) (df : DataFrame) : DBState :=
  match SQLiteDB.create_table_query table_name df with
  | none => s
  | some q => if s.connected then { s with executed := s.executed ++ [.createTable q] } else s

/-- The INSERT OR REPLACE statement SQLiteDB.upsert_from_dataframe and
upsert_from_dict build (sqlite.py lines 134 and 163). -/
def SQLiteDB.insert_statement (table_name : String) (columns : List String) : String :=
  "INSERT OR REPLACE INTO " ++ table_name ++ " (" ++ joinComma columns ++
    ") VALUES (" ++ placeholders columns.length ++ ")"

/-- Models SQLiteDB.upsert_from_dataframe (sqlite.py lines 115 to 141):
empty batches are refused; a falsy primary-key answer triggers table
creation; the INSERT OR REPLACE statement over the reset-index columns
is then submitted unconditionally, since this dialect never re-checks
the key columns before inserting. -/
def SQLiteDB.upsert_from_dataframe (s : DBState) (table_name : String) (df : DataFrame) :
    DBState :=
  if df.nrows = 0 then s
  else
    let r := SQLiteDB.get_primary_key s table_name
    let s1 := if pk_falsy r.1 then SQLiteDB.create_table r.2 table_name df else r.2
    let stmt := SQLiteDB.insert_statement table_name df.reset_index_cols
    if s1.connected then { s1 with executed := s1.executed ++ [.insert stmt] } else s1

/-- Models SQLiteDB.upsert_from_dict (sqlite.py lines 143 to 170):
refuses empty dicts, wraps the dict in a one-row DataFrame for the
creation path, then submits the INSERT OR REPLACE statement over the
dict keys. -/
def SQLiteDB.upsert_from_dict (s : DBState) (table_name : String)
    (data : List (String × Dtype)) : DBState :=
  if data = [] then s
  else
    let df := DataFrame.from_dict data
    let r := SQLiteDB.get_primary_key s table_name
    let s1 := if pk_falsy r.1 then SQLiteDB.create_table r.2 table_name df else r.2
    let stmt := SQLiteDB.insert_statement table_name (data.map Prod.fst)
    if s1.connected then { s1 with executed := s1.executed ++ [.insert stmt] } else s1

/-- Models SQLiteDB.clear_cache (sqlite.py lines 48 to 54): empty the
in-memory cache and persist the empty cache; no cursor is touched. -/
def SQLiteDB.clear_cache (s : DBState) : DBState :=
  { s with cache := [], cache_file := some (.mk []) }

/-- Models SQLiteDB.execute (sqlite.py lines 214 to 224): submits the
command inside a handler; with no cursor the call raises and the handler
swallows it. -/
def SQLiteDB.execute (s : DBState) (command : String) : DBState :=
  if s.connected then { s with executed := s.executed ++ [.raw command] } else s

/-- The exception Python raises on access to an attribute the degraded
constructor never assigned. -/
inductive AttrError where
  | attributeError : AttrError
deriving DecidableEq, Repr

/-- Models SQLiteDB.close (sqlite.py lines 225 to 231): the cursor and
connection close calls run outside any handler, so close raises when
the cursor attribute was never assigned. -/
def SQLiteDB.close (s : DBState) : Except AttrError Unit :=
  if s.connected then .ok () else .error .attributeError

/-- The two result shapes SQLiteDB.query can return. -/
inductive QueryResult where
  | pandas : List String → List (List Value) → QueryResult
  | dict : List (List (String × Value)) → QueryResult
deriving DecidableEq, Repr

/-- Models SQLiteDB.query (sqlite.py lines 185 to 205) given the outcome
of the native execution: a native failure is caught, printed and turned
into None; a success yields column names and rows, shaped per the
return_type argument; an invalid return_type raises ValueError inside
the same try block, which the handler also converts to None. -/
def SQLiteDB.query (exec_result : Except String (List String × List (List Value)))
    (return_type : String) : Option QueryResult :=
  match exec_result with
  | .error _ => none
  | .ok (cols, rows) =>
    if return_type = "pandas" then some (.pandas cols rows)
    else if return_type = "dict" then some (.dict (rows.map fun r => cols.zip r))
    else none

/-- The introspection query of DuckDB._get_primary_key (duck.py line
80); the source suffixes an empty string literal, which changes
nothing. -/
def DuckDB.pragma_query (table_name : String) : String :=
  "PRAGMA table_info(" ++ "\x27" ++ table_name ++ "\x27" ++ ");"

/-- Models DuckDB._get_primary_key (duck.py lines 71 to 94), identical
in structure to the sqlite variant apart from its query text. -/
def DuckDB.get_primary_key (s : DBState) (table_name : String) :
    Option (List String) × DBState :=
  match cache_pk_hit s.cache table_name with
  | some pks => (some pks, s)
  | none =>
    if s.connected then
      let conflict_columns := (s.catalog.lookup table_name).getD []
      let cache := s.cache.put_pk table_name conflict_columns
      (some conflict_columns,
        { s with cache := cache, cache_file := some (.mk cache),
                 executed := s.executed ++ [.introspect (DuckDB.pragma_query table_name)] })
    else (none, s)

/-- Dialect type mapping of DuckDB._create_table_from_dataframe. -/
def duck_col_type : Dtype → String
  | .int64 => "INTEGER"
  | .float64 => "DOUBLE"
  | _ => "VARCHAR"

/-- Models DuckDB._create_table_from_dataframe (duck.py lines 96 to 128)
as the statement it builds: none on the no-index refusal, otherwise the
CREATE TABLE text with typed data columns, missing key columns appended
as VARCHAR, and the trailing PRIMARY KEY clause. -/
def DuckDB.create_table_query (table_name : String) (df : DataFrame) : Option String :=
  let columns_with_types := df.columns.map fun c => c.1 ++ " " ++ duck_col_type c.2
  let primary_keys := df.primary_keys
  if primary_keys = [] then none
  else
    let columns_with_types := columns_with_types ++
      ((primary_keys.filter fun pk => ! df.col_names.contains pk).map fun pk => pk ++ " VARCHAR")
    some ("CREATE TABLE " ++ table_name ++ " (" ++ joinComma columns_with_types ++
      ", PRIMARY KEY (" ++ joinComma primary_keys ++ "));")

/-- State-level effect of DuckDB._create_table_from_dataframe. -/
def DuckDB.create_table (s : DBState) (table_name : String) (df : DataFrame) : DBState :=
  match DuckDB.create_table_query table_name df with
  | none => s
  | some q => if s.connected then { s with executed := s.executed ++ [.createTable q] } else s

/-- The update clause items col=excluded.col over the columns outside
the conflict set (duck.py line 154). -/
def DuckDB.update_fields (columns conflict_columns : List String) : String :=
  joinComma ((columns.filter fun c => ! conflict_columns.contains c).map
    fun c => c ++ "=excluded." ++ c)

/-- The INSERT ... ON CONFLICT ... DO UPDATE SET statement
DuckDB.upsert_from_dataframe builds (duck.py line 155). -/
def DuckDB.insert_statement (table_name : String) (columns conflict_columns : List String) :
    String :=
  "INSERT INTO " ++ table_name ++ " (" ++ joinComma columns ++ ") VALUES (" ++
    placeholders columns.length ++ ") ON CONFLICT (" ++ joinComma conflict_columns ++
    ") DO UPDATE SET " ++ DuckDB.update_fields columns conflict_columns ++ ";"

/-- Models DuckDB.upsert_from_dataframe (duck.py lines 130 to 162):
unlike the sqlite dialect, after the creation attempt it re-reads the
key columns and abandons the upsert, submitting no insert statement,
when the answer is still falsy. -/
def DuckDB.upsert_from_dataframe (s : DBState) (table_name : String) (df : DataFrame) :
    DBState :=
  if df.nrows = 0 then s
  else
    let r := DuckDB.get_primary_key s table_name
    let s1 := if pk_falsy r.1 then DuckDB.create_table r.2 table_name df else r.2
    let r2 := DuckDB.get_primary_key s1 table_name
    match r2.1 with
    | some (c :: cs) =>
      let stmt := DuckDB.insert_statement table_name df.reset_index_cols (c :: cs)
      if r2.2.connected then { r2.2 with executed := r2.2.executed ++ [.insert stmt] }
      else r2.2
    | _ => r2.2

/-- Models DuckDB.clear_cache (duck.py lines 63 to 69). -/
def DuckDB.clear_cache (s : DBState) : DBState :=
  { s with cache := [], cache_file := some (.mk []) }

/-- Double-quoted identifier rendering of the psycopg2 sql module. -/
def quote_ident (c : String) : String := "\"" ++ c ++ "\""

/-- The catalog query of PostgresDB._get_primary_key (pgsql.py lines 88
to 93). -/
def PostgresDB.key_query (table_name : String) : String :=
  "SELECT kcu.column_name FROM information_schema.table_constraints tc " ++
    "JOIN information_schema.key_column_usage kcu " ++
    "ON kcu.constraint_name = tc.constraint_name " ++
    "WHERE tc.table_name = " ++ "\x27" ++ table_name ++ "\x27" ++
    " AND tc.constraint_type = \x27PRIMARY KEY\x27;"

/-- Models PostgresDB._get_primary_key (pgsql.py lines 79 to 106), the
same structure again with the information-schema query. -/
def PostgresDB.get_primary_key (s : DBState) (table_name : String) :
    Option (List String) × DBState :=
  match cache_pk_hit s.cache table_name with
  | some pks => (some pks, s)
  | none =>
    if s.connected then
      let conflict_columns := (s.catalog.lookup table_name).getD []
      let cache := s.cache.put_pk table_name conflict_columns
      (some conflict_columns,
        { s with cache := cache, cache_file := some (.mk cache),
                 executed := s.executed ++ [.introspect (PostgresDB.key_query table_name)] })
    else (none, s)

/-- Dialect type mapping of PostgresDB._create_table_from_dataframe. -/
def pg_col_type : Dtype → String
  | .int64 => "INTEGER"
  | .float64 => "FLOAT"
  | _ => "TEXT"

/-- In-place suffix append at one list position, modelling the
augmented assignment columns_with_types[i] += suffix. -/
def set_at_append (l : List String) (i : Nat) (suffix : String) : List String :=
  l.set i (l.getD i "" ++ suffix)

/-- Models PostgresDB._create_table_from_dataframe (pgsql.py lines 136
to 173): typed data columns, missing key columns appended as TEXT, the
no-index refusal, then an inline PRIMARY KEY modifier appended to every
key column that is a data column, and the trailing composite PRIMARY
KEY clause. -/
def PostgresDB.create_table_query (table_name : String) (df : DataFrame) : Option String :=
  let columns_with_types := df.columns.map fun c => c.1 ++ " " ++ pg_col_type c.2
  let primary_keys := df.primary_keys
  let columns_with_types := columns_with_types ++
    ((primary_keys.filter fun pk => ! df.col_names.contains pk).map fun pk => pk ++ " TEXT")
  if primary_keys = [] then none
  else
    let columns_with_types := primary_keys.foldl (fun acc pk =>
      if df.col_names.contains pk then
        set_at_append acc (df.col_names.findIdx (fun c => c == pk)) " PRIMARY KEY"
      else acc) columns_with_types
    some ("CREATE TABLE " ++ table_name ++ " (" ++ joinComma columns_with_types ++
      ", PRIMARY KEY (" ++ joinComma primary_keys ++ "));")

/-- State-level effect of PostgresDB._create_table_from_dataframe. -/
def PostgresDB.create_table (s : DBState) (table_name : String) (df : DataFrame) : DBState :=
  match PostgresDB.create_table_query table_name df with
  | none => s
  | some q => if s.connected then { s with executed := s.executed ++ [.createTable q] } else s

/-- The update clause of both PostgresDB upsert paths: quoted
col = EXCLUDED.col over the columns outside the conflict set. -/
def PostgresDB.update_fields (columns conflict_columns : List String) : String :=
  String.intercalate ", " ((columns.filter fun c => ! conflict_columns.contains c).map
    fun c => quote_ident c ++ " = EXCLUDED." ++ quote_ident c)

/-- The statement PostgresDB.upsert_from_dataframe builds (pgsql.py
lines 198 to 208), rendered as psycopg2 renders it: fields are the
reset-index columns, the update clause ranges over the data columns
outside the conflict set, and execute_values later substitutes the
VALUES %s part. -/
def PostgresDB.insert_statement_values (table_name : String)
    (fields columns conflict_columns : List String) : String :=
  "INSERT INTO " ++ quote_ident table_name ++ " (" ++
    String.intercalate "," (fields.map quote_ident) ++
    ") VALUES %s ON CONFLICT (" ++
    String.intercalate ", " (conflict_columns.map quote_ident) ++
    ") DO UPDATE SET " ++ PostgresDB.update_fields columns conflict_columns

/-- The statement PostgresDB.upsert_from_dict builds (pgsql.py lines
240 to 251). -/
def PostgresDB.insert_statement_dict (table_name : String)
    (columns conflict_columns : List String) : String :=
  "INSERT INTO " ++ quote_ident table_name ++ " (" ++
    String.intercalate "," (columns.map quote_ident) ++
    ") VALUES (" ++ String.intercalate "," (List.replicate columns.length "%s") ++
    ") ON CONFLICT (" ++ String.intercalate ", " (conflict_columns.map quote_ident) ++
    ") DO UPDATE SET " ++ PostgresDB.update_fields columns conflict_columns

/-- Models PostgresDB.upsert_from_dataframe (pgsql.py lines 175 to
214): like the duckdb dialect it re-reads the key columns after the
creation attempt and abandons the upsert when they are falsy. -/
def PostgresDB.upsert_from_dataframe (s : DBState) (table_name : String) (df : DataFrame) :
    DBState :=
  if df.nrows = 0 then s
  else
    let r := PostgresDB.get_primary_key s table_name
    let s1 := if pk_falsy r.1 then PostgresDB.create_table r.2 table_name df else r.2
    let r2 := PostgresDB.get_primary_key s1 table_name
    match r2.1 with
    | some (c :: cs) =>
      let stmt := PostgresDB.insert_statement_values table_name df.reset_index_cols
        df.col_names (c :: cs)
      if r2.2.connected then { r2.2 with executed := r2.2.executed ++ [.insert stmt] }
      else r2.2
    | _ => r2.2

/-- Models PostgresDB.upsert_from_dict (pgsql.py lines 216 to 257):
wraps the dict in a one-row DataFrame for the creation path, re-reads
the key columns and abandons the upsert when they are falsy. -/
def PostgresDB.upsert_from_dict (s : DBState) (table_name : String)
    (data : List (String × Dtype)) : DBState :=
  if data = [] then s
  else
    let df := DataFrame.from_dict data
    let r := PostgresDB.get_primary_key s table_name
    let s1 := if pk_falsy r.1 then PostgresDB.create_table r.2 table_name df else r.2
    let r2 := PostgresDB.get_primary_key s1 table_name
    match r2.1 with
    | some (c :: cs) =>
      let stmt := PostgresDB.insert_statement_dict table_name (data.map Prod.fst) (c :: cs)
      if r2.2.connected then { r2.2 with executed := r2.2.executed ++ [.insert stmt] }
      else r2.2
    | _ => r2.2

/-- The backend adapter the facade constructed, with the path it was
handed. -/
inductive Backend where
  | sqlite : String → Backend
  | postgres : String → Backend
  | duckdb : String → Backend
deriving DecidableEq, Repr

/-- The two construction failures of DatabaseManager.__init__: the
FileNotFoundError for a missing file and the ValueError for an
unrecognized backend discriminator. -/
inductive InitError where
  | MissingConfigFile : String → InitError
  | UnsupportedBackend : String → InitError
deriving DecidableEq, Repr

/-- The keyword arguments DatabaseManager.__init__ reads, each with the
default used when absent. -/
structure Kwargs where
  db_file : Option String := none
  config_file : Option String := none
deriving DecidableEq, Repr

/-- Models DatabaseManager.__init__ (datamanager.py lines 14 to 31)
over an abstract file-existence predicate: the sqlite and postgres
branches require their file to exist and raise FileNotFoundError before
constructing any adapter; the duckdb branch performs no existence
check; an unrecognized discriminator reaches the final else and raises
ValueError before any branch constructs an adapter or connects. -/
def DatabaseManager.init (fs_exists : String → Bool) (db_type : String) (kw : Kwargs) :
    Except InitError Backend :=
  if db_type = "sqlite" then
    let db_file := kw.db_file.getD "sqlite.db"
    if fs_exists db_file then .ok (.sqlite db_file)
    else .error (.MissingConfigFile db_file)
  else if db_type = "postgres" then
    let config_file := kw.config_file.getD "config.toml"
    if fs_exists config_file then .ok (.postgres config_file)
    else .error (.MissingConfigFile config_file)
  else if db_type = "duckdb" then
    .ok (.duckdb (kw.db_file.getD "duckdb.db"))
  else
    .error (.UnsupportedBackend db_type)

/-- A database row: a full assignment of the table columns, as an
association list from column name to value. -/
abbrev Row := List (String × Value)

/-- A backend table: its column list, primary-key columns and rows. -/
structure SQLTable where
  cols : List String
  pk : List String
  rows : List Row
deriving DecidableEq, Repr

/-- The row an insert of the given column list and values produces:
each table column takes the supplied value when the statement names it,
and the null default otherwise. -/
def mk_row (tcols cols : List String) (vals : List Value) : Row :=
  tcols.map fun c => (c, ((cols.zip vals).lookup c).getD .null)

/-- The primary-key projection of a row. -/
def key_of (pk : List String) (r : Row) : List (Option Value) :=
  pk.map fun k => r.lookup k

/-- Engine semantics of INSERT OR REPLACE, per the sqlite documentation
of the REPLACE conflict resolution: the incoming row deletes every
existing row that collides with it on the primary key and is inserted
whole, so columns the statement does not name revert to the null
default instead of keeping their previous values. -/
def exec_insert_or_replace (t : SQLTable) (cols : List String) (vals : List Value) :
    SQLTable :=
  let new := mk_row t.cols cols vals
  { t with rows := (t.rows.filter fun r => ! (key_of t.pk r == key_of t.pk new)) ++ [new] }

/-- Update of one row by DO UPDATE SET c=excluded.c over update_cols:
only the named columns change, each to the incoming value for it. -/
def update_row (r : Row) (incoming : List (String × Value)) (update_cols : List String) :
    Row :=
  r.map fun cv =>
    if update_cols.contains cv.1 then (cv.1, (incoming.lookup cv.1).getD cv.2) else cv

/-- Engine semantics of INSERT ... ON CONFLICT (conflict) DO UPDATE SET
over the columns outside the conflict set, per the duckdb and postgres
documentation: a row colliding on the primary key is updated in place
on exactly those columns, every other column of it untouched; with no
collision the incoming row is inserted. -/
def exec_on_conflict_update (t : SQLTable) (cols : List String) (vals : List Value)
    (conflict : List String) : SQLTable :=
  let incoming := cols.zip vals
  let new := mk_row t.cols cols vals
  let update_cols := cols.filter fun c => ! conflict.contains c
  if t.rows.any (fun r => key_of t.pk r == key_of t.pk new) then
    { t with rows := t.rows.map fun r =>
        if key_of t.pk r == key_of t.pk new then update_row r incoming update_cols else r }
  else
    { t with rows := t.rows ++ [new] }

/-- Unfolding equation for association-list lookup at a cons cell. -/
theorem lookup_cons {β : Type} (a k : String) (v : β) (es : List (String × β)) :
    ((k, v) :: es).lookup a = if a = k then some v else es.lookup a := by
  by_cases h : a = k
  · subst h
    simp [List.lookup]
  · have h2 : (a == k) = false := by simp [h]
    simp [List.lookup, h2, h]

/-- Lookup after the map step of put_pk: the entry for the written table
gets its primary_key field set, every other entry is untouched. -/
theorem lookup_map_update (c : MetadataCache) (t : String) (pks : List String) :
    (c.map fun e =>
        if e.1 = t then (e.1, { e.2 with primary_key := some pks }) else e).lookup t
      = (c.lookup t).map fun md => { md with primary_key := some pks } := by
  induction c with
  | nil => simp
  | cons e es ih =>
    obtain ⟨a, md⟩ := e
    by_cases h : a = t
    · subst h
      simp [lookup_cons, ih]
    · simp [lookup_cons, h, Ne.symm h, ih]

/-- Lookup in a list extended on the right with a fresh key finds the
new entry. -/
theorem lookup_append_of_none {β : Type} (c : List (String × β)) (t : String) (v : β)
    (h : c.lookup t = none) : (c ++ [(t, v)]).lookup t = some v := by
  induction c with
  | nil => simp [lookup_cons]
  | cons e es ih =>
    obtain ⟨a, w⟩ := e
    rw [lookup_cons] at h
    by_cases ht : t = a
    · rw [if_pos ht] at h
      exact absurd h (by simp)
    · rw [if_neg ht] at h
      rw [List.cons_append, lookup_cons, if_neg ht]
      exact ih h

/-- After the caching step of get_primary_key, the cache-hit test on the
written table answers with the stored key column list. -/
theorem cache_pk_hit_put_pk (c : MetadataCache) (t : String) (pks : List String) :
    cache_pk_hit (c.put_pk t pks) t = some pks := by
  have hl : (c.put_pk t pks).lookup t
      = some { (c.lookup t).getD {} with primary_key := some pks } := by
    unfold MetadataCache.put_pk
    by_cases h : (c.lookup t).isSome = true
    · rw [if_pos h, lookup_map_update]
      obtain ⟨md, hmd⟩ := Option.isSome_iff_exists.mp h
      rw [hmd]
      rfl
    · have hn : c.lookup t = none := Option.not_isSome_iff_eq_none.mp h
      rw [if_neg h, lookup_append_of_none _ _ _ hn, hn]
      rfl
  simp [cache_pk_hit, hl]

/-- Lookup in an association list built by tagging each name with a
value computed from it. -/
theorem lookup_map_self (f : String → Value) (l : List String) (c : String) (h : c ∈ l) :
    (l.map fun x => (x, f x)).lookup c = some (f c) := by
  induction l with
  | nil => cases h
  | cons a l ih =>
    by_cases hc : c = a
    · subst hc
      simp [lookup_cons]
    · rcases List.mem_cons.mp h with h1 | h1
      · exact absurd h1 hc
      · simp [lookup_cons, hc, ih h1]

/-- A zip of column names and values has no entry for a column outside
the name list. -/
theorem lookup_zip_none (cols : List String) (vals : List Value) (c : String)
    (h : c ∉ cols) : (cols.zip vals).lookup c = none := by
  induction cols generalizing vals with
  | nil => simp
  | cons a cols ih =>
    cases vals with
    | nil => simp
    | cons v vs =>
      have hca : c ≠ a := fun e => h (e ▸ List.mem_cons_self a cols)
      rw [List.zip_cons_cons, lookup_cons, if_neg hca]
      exact ih _ (fun hm => h (List.mem_cons_of_mem a hm))

/-- The inserted row holds the statement value for every column the
statement names, and null for every other table column. -/
theorem lookup_mk_row (tcols cols : List String) (vals : List Value) (c : String)
    (h : c ∈ tcols) :
    (mk_row tcols cols vals).lookup c = some (((cols.zip vals).lookup c).getD .null) :=
  lookup_map_self _ tcols c h

/-- DO UPDATE SET leaves every column outside the update set untouched. -/
theorem lookup_update_row_not_mem (r : Row) (inc : List (String × Value))
    (u : List String) (c : String) (h : c ∉ u) :
    (update_row r inc u).lookup c = r.lookup c := by
  induction r with
  | nil => rfl
  | cons cv r ih =>
    obtain ⟨a, v⟩ := cv
    simp only [update_row, List.map_cons] at ih ⊢
    by_cases hca : c = a
    · subst hca
      rw [if_neg (by simp [h])]
      simp [lookup_cons]
    · by_cases hua : u.contains a = true
      · rw [if_pos hua]
        simpa [lookup_cons, hca] using ih
      · rw [if_neg hua]
        simpa [lookup_cons, hca] using ih

/-- DO UPDATE SET writes the incoming value into every updated column
present in the row. -/
theorem lookup_update_row_mem (r : Row) (inc : List (String × Value))
    (u : List String) (c : String) (w : Value) (hu : c ∈ u)
    (hw : inc.lookup c = some w) (hr : (r.lookup c).isSome = true) :
    (update_row r inc u).lookup c = some w := by
  induction r with
  | nil => simp [List.lookup] at hr
  | cons cv r ih =>
    obtain ⟨a, v⟩ := cv
    simp only [update_row, List.map_cons] at ih ⊢
    by_cases hca : c = a
    · subst hca
      rw [if_pos (by simp [hu])]
      simp [lookup_cons, hw]
    · rw [lookup_cons, if_neg hca] at hr
      by_cases hua : u.contains a = true
      · rw [if_pos hua]
        simpa [lookup_cons, hca] using ih hr
      · rw [if_neg hua]
        simpa [lookup_cons, hca] using ih hr

/-- DO UPDATE SET over columns disjoint from the primary key preserves
the primary-key projection of the row it updates. -/
theorem key_of_update_row (pk u : List String) (r : Row) (inc : List (String × Value))
    (h : ∀ k ∈ pk, k ∉ u) :
    key_of pk (update_row r inc u) = key_of pk r := by
  induction pk with
  | nil => rfl
  | cons k pk ih =>
    unfold key_of
    rw [List.map_cons, List.map_cons,
      lookup_update_row_not_mem r inc u k (h k (List.mem_cons_self k pk))]
    have := ih (fun k hk => h k (List.mem_cons_of_mem _ hk))
    unfold key_of at this
    rw [this]

/-- Filtering commutes with a map that does not change the predicate. -/
theorem filter_map_comm (l : List Row) (f : Row → Row) (p : Row → Bool)
    (h : ∀ r, p (f r) = p r) :
    (l.map f).filter p = (l.filter p).map f := by
  induction l with
  | nil => rfl
  | cons r l ih =>
    rw [List.map_cons, List.filter_cons, List.filter_cons, h r]
    cases hp : p r <;> simp [ih]

/-- A filter by a predicate after a filter by its negation is empty. -/
theorem filter_not_filter (l : List Row) (p : Row → Bool) :
    ((l.filter fun r => ! p r).filter p) = [] := by
  induction l with
  | nil => rfl
  | cons r l ih =>
    rw [List.filter_cons]
    cases hp : p r <;> simp [hp, List.filter_cons, ih]

/-- A freshly connected adapter over an empty database: empty cache, no
cache file yet, empty catalog, nothing executed. -/
def sLive : DBState :=
  { connected := true, cache := [], cache_file := none, catalog := [], executed := [] }

/-- A degraded adapter whose connect step failed. -/
def sDeg : DBState :=
  { connected := false, cache := [], cache_file := none, catalog := [], executed := [] }

/-- A one-row batch with a data column and no designated key column
(its single index level is unnamed). -/
def df_noindex : DataFrame :=
  { index_names := [none], columns := [("a", .int64)], nrows := 1 }

/-- A three-column batch keyed on the id index level. -/
def df_keyed : DataFrame :=
  { index_names := [some "id"], columns := [("a", .int64), ("b", .float64), ("c", .object)],
    nrows := 1 }

/-- C3: facade construction with a discriminator outside the recognized
set sqlite, postgres, duckdb fails with UnsupportedBackend before any
connection attempt (the error is raised by the final else, with no
adapter value constructed); the sqlite and postgres variants fail with
MissingConfigFile when the named database or configuration file does not
exist; the duckdb variant succeeds with no existence check, whatever the
file system answers. -/
theorem C3_facade_construction (fs : String → Bool) (kw : Kwargs) :
    (∀ db_type, db_type ≠ "sqlite" → db_type ≠ "postgres" → db_type ≠ "duckdb" →
      DatabaseManager.init fs db_type kw = .error (.UnsupportedBackend db_type)) ∧
    (fs (kw.db_file.getD "sqlite.db") = false →
      DatabaseManager.init fs "sqlite" kw
        = .error (.MissingConfigFile (kw.db_file.getD "sqlite.db"))) ∧
    (fs (kw.config_file.getD "config.toml") = false →
      DatabaseManager.init fs "postgres" kw
        = .error (.MissingConfigFile (kw.config_file.getD "config.toml"))) ∧
    (DatabaseManager.init fs "duckdb" kw = .ok (.duckdb (kw.db_file.getD "duckdb.db"))) := by
  refine ⟨?_, ?_, ?_, ?_⟩
  · intro t h1 h2 h3
    simp [DatabaseManager.init, h1, h2, h3]
  · intro h
    simp [DatabaseManager.init, h]
  · intro h
    simp [DatabaseManager.init, h]
  · simp [DatabaseManager.init]

/-- Witness for C3 at concrete inputs: the discriminator mysql is
rejected, and with no file existing sqlite and postgres construction
fail while duckdb construction succeeds. -/
theorem C3_facade_construction_witness :
    DatabaseManager.init (fun _ => false) "mysql" {}
        = .error (.UnsupportedBackend "mysql") ∧
    DatabaseManager.init (fun _ => false) "sqlite" {}
        = .error (.MissingConfigFile "sqlite.db") ∧
    DatabaseManager.init (fun _ => false) "postgres" {}
        = .error (.MissingConfigFile "config.toml") ∧
    DatabaseManager.init (fun _ => false) "duckdb" {} = .ok (.duckdb "duckdb.db") :=
  ⟨(C3_facade_construction (fun _ => false) {}).1 "mysql" (by decide) (by decide) (by decide),
    (C3_facade_construction (fun _ => false) {}).2.1 rfl,
    (C3_facade_construction (fun _ => false) {}).2.2.1 rfl,
    (C3_facade_construction (fun _ => false) {}).2.2.2⟩

/-- C4 counterexample: loading a cache file that exists but fails to
deserialize does not return an empty cache; the unhandled pickle error
propagates out of the load instead. -/
theorem C4_counterexample_load_raises :
    SQLiteDB.load_cache (some Blob.corrupt) = .error .unpickle := rfl

/-- C4 amended: the cache load returns an empty cache when the file
does not exist (and the encoded cache when it deserializes), but a file
that fails to deserialize raises out of the load; the adapter
constructor catches that error and completes degraded with the cache
attribute never assigned, so the caller does not proceed with an empty
cache. -/
theorem C4_load_cache_amended :
    (SQLiteDB.load_cache none = .ok []) ∧
    (∀ c, SQLiteDB.load_cache (some (Blob.mk c)) = .ok c) ∧
    (∀ co, SQLiteDB.init (some Blob.corrupt) co = { cache := none, connected := false }) ∧
    (∀ c co, SQLiteDB.init (some (Blob.mk c)) co = { cache := some c, connected := co }) :=
  ⟨rfl, fun _ => rfl, fun _ => rfl, fun _ _ => rfl⟩

/-- C6: putting primary-key metadata for a table merges it into the
in-memory map, the save rewrites the whole cache into the blob, and a
fresh load of that blob returns the identical cache, whose entry for the
table answers with the metadata that was put. -/
theorem C6_cache_round_trip (cache : MetadataCache) (t : String) (pks : List String) :
    (SQLiteDB.load_cache (some (Blob.mk (cache.put_pk t pks))) = .ok (cache.put_pk t pks)) ∧
    (cache_pk_hit (cache.put_pk t pks) t = some pks) :=
  ⟨rfl, cache_pk_hit_put_pk cache t pks⟩

/-- C8: a query matching zero rows under the tabular shape returns an
empty table structure, not an absent result; a native execution error
returns the absent result; the two outcomes are never equal, so the
caller can distinguish them. -/
theorem C8_query_empty_vs_error :
    (∀ cols, SQLiteDB.query (.ok (cols, [])) "pandas" = some (.pandas cols [])) ∧
    (∀ e rt, SQLiteDB.query (.error e) rt = none) ∧
    (∀ cols rows e rt,
      SQLiteDB.query (.ok (cols, rows)) "pandas" ≠ SQLiteDB.query (.error e) rt) := by
  refine ⟨fun cols => rfl, fun e rt => rfl, fun cols rows e rt => ?_⟩
  simp [SQLiteDB.query]

/-- A cache hit short-circuits sqlite primary-key discovery. -/
theorem sqlite_gpk_hit (s : DBState) (t : String) (pks : List String)
    (h : cache_pk_hit s.cache t = some pks) :
    SQLiteDB.get_primary_key s t = (some pks, s) := by
  unfold SQLiteDB.get_primary_key
  rw [h]

/-- On a cache miss with a live connection, sqlite primary-key
discovery introspects the catalog, caches and persists the answer. -/
theorem sqlite_gpk_miss (s : DBState) (t : String)
    (hconn : s.connected = true) (hmiss : cache_pk_hit s.cache t = none) :
    SQLiteDB.get_primary_key s t =
      (some ((s.catalog.lookup t).getD []),
        { s with cache := s.cache.put_pk t ((s.catalog.lookup t).getD []),
                 cache_file := some (.mk (s.cache.put_pk t ((s.catalog.lookup t).getD []))),
                 executed := s.executed ++ [.introspect (SQLiteDB.pragma_query t)] }) := by
  unfold SQLiteDB.get_primary_key
  rw [hmiss]
  simp [hconn]

/-- A cache hit short-circuits duckdb primary-key discovery. -/
theorem duck_gpk_hit (s : DBState) (t : String) (pks : List String)
    (h : cache_pk_hit s.cache t = some pks) :
    DuckDB.get_primary_key s t = (some pks, s) := by
  unfold DuckDB.get_primary_key
  rw [h]

/-- On a cache miss with a live connection, duckdb primary-key
discovery introspects the catalog, caches and persists the answer. -/
theorem duck_gpk_miss (s : DBState) (t : String)
    (hconn : s.connected = true) (hmiss : cache_pk_hit s.cache t = none) :
    DuckDB.get_primary_key s t =
      (some ((s.catalog.lookup t).getD []),
        { s with cache := s.cache.put_pk t ((s.catalog.lookup t).getD []),
                 cache_file := some (.mk (s.cache.put_pk t ((s.catalog.lookup t).getD []))),
                 executed := s.executed ++ [.introspect (DuckDB.pragma_query t)] }) := by
  unfold DuckDB.get_primary_key
  rw [hmiss]
  simp [hconn]

/-- A cache hit short-circuits postgres primary-key discovery. -/
theorem pg_gpk_hit (s : DBState) (t : String) (pks : List String)
    (h : cache_pk_hit s.cache t = some pks) :
    PostgresDB.get_primary_key s t = (some pks, s) := by
  unfold PostgresDB.get_primary_key
  rw [h]

/-- On a cache miss with a live connection, postgres primary-key
discovery introspects the catalog, caches and persists the answer. -/
theorem pg_gpk_miss (s : DBState) (t : String)
    (hconn : s.connected = true) (hmiss : cache_pk_hit s.cache t = none) :
    PostgresDB.get_primary_key s t =
      (some ((s.catalog.lookup t).getD []),
        { s with cache := s.cache.put_pk t ((s.catalog.lookup t).getD []),
                 cache_file := some (.mk (s.cache.put_pk t ((s.catalog.lookup t).getD []))),
                 executed := s.executed ++ [.introspect (PostgresDB.key_query t)] }) := by
  unfold PostgresDB.get_primary_key
  rw [hmiss]
  simp [hconn]

/-- C9: when live discovery runs and finds zero key columns, the empty
list is cached for the table and the whole cache persisted; every
subsequent lookup answers with the cached empty list and leaves the
state untouched whatever the live catalog now holds, so a table created
afterwards stays recorded as keyless; only after clear_cache does a
lookup introspect the live catalog again. Stated for the sqlite and
duckdb discovery routines. -/
theorem C9_empty_key_list_cached (s : DBState) (t : String)
    (hconn : s.connected = true)
    (hmiss : cache_pk_hit s.cache t = none)
    (hcat : (s.catalog.lookup t).getD [] = []) :
    ((SQLiteDB.get_primary_key s t).1 = some []) ∧
    (cache_pk_hit (SQLiteDB.get_primary_key s t).2.cache t = some []) ∧
    ((SQLiteDB.get_primary_key s t).2.cache_file
      = some (Blob.mk (SQLiteDB.get_primary_key s t).2.cache)) ∧
    (∀ cat2, SQLiteDB.get_primary_key
        { (SQLiteDB.get_primary_key s t).2 with catalog := cat2 } t
      = (some [], { (SQLiteDB.get_primary_key s t).2 with catalog := cat2 })) ∧
    (∀ cat2,
      (SQLiteDB.get_primary_key
        { SQLiteDB.clear_cache (SQLiteDB.get_primary_key s t).2 with catalog := cat2 } t).1
        = some ((cat2.lookup t).getD []) ∧
      (SQLiteDB.get_primary_key
        { SQLiteDB.clear_cache (SQLiteDB.get_primary_key s t).2 with catalog := cat2 } t).2.executed
        = s.executed ++ [.introspect (SQLiteDB.pragma_query t),
            .introspect (SQLiteDB.pragma_query t)]) ∧
    ((DuckDB.get_primary_key s t).1 = some []) ∧
    (∀ cat2, DuckDB.get_primary_key
        { (DuckDB.get_primary_key s t).2 with catalog := cat2 } t
      = (some [], { (DuckDB.get_primary_key s t).2 with catalog := cat2 })) := by
  have h1 := sqlite_gpk_miss s t hconn hmiss
  rw [hcat] at h1
  have h1d := duck_gpk_miss s t hconn hmiss
  rw [hcat] at h1d
  refine ⟨?_, ?_, ?_, ?_, ?_, ?_, ?_⟩
  · rw [h1]
  · rw [h1]
    exact cache_pk_hit_put_pk _ _ _
  · rw [h1]
  · intro cat2
    rw [h1]
    exact sqlite_gpk_hit _ _ _ (cache_pk_hit_put_pk _ _ _)
  · intro cat2
    rw [h1]
    constructor
    · simp [SQLiteDB.clear_cache, SQLiteDB.get_primary_key, cache_pk_hit, hconn]
    · simp [SQLiteDB.clear_cache, SQLiteDB.get_primary_key, cache_pk_hit, hconn]
  · rw [h1d]
  · intro cat2
    rw [h1d]
    exact duck_gpk_hit _ _ _ (cache_pk_hit_put_pk _ _ _)

/-- Witness for C9 on a fresh connected adapter and the table t: the
discovered key list is empty and it is what the cache then holds. -/
theorem C9_empty_key_list_cached_witness :
    ((SQLiteDB.get_primary_key sLive "t").1 = some []) ∧
    (cache_pk_hit (SQLiteDB.get_primary_key sLive "t").2.cache "t" = some []) :=
  ⟨(C9_empty_key_list_cached sLive "t" rfl rfl rfl).1,
   (C9_empty_key_list_cached sLive "t" rfl rfl rfl).2.1⟩

/-- C2 counterexample: on a fresh connected sqlite adapter, upserting a
batch with no designated key column into a table with no determinable
primary key (live discovery returns the empty list, table creation is
refused) still submits the INSERT OR REPLACE statement to the native
engine: the upsert is not abandoned and an insert statement is
executed, contradicting the claim for this backend. -/
theorem C2_counterexample_sqlite_still_inserts :
    (SQLiteDB.upsert_from_dataframe sLive "t" df_noindex).executed.filter NativeCall.isInsert
      = [.insert (SQLiteDB.insert_statement "t" ["index", "a"])] := by
  rfl

/-- C2 amended: for the duckdb and postgres backends the claim holds:
with no cached entry, live discovery returning an empty column list and
a batch lacking a designated key column (so table creation is refused),
the upsert is abandoned and the only statement submitted is the
read-only catalog introspection, with no insert and no create; the
sqlite backend, by contrast, proceeds to execute its INSERT OR REPLACE
statement. -/
theorem C2_amended_duck_pg_abandon (s : DBState) (t : String) (df : DataFrame)
    (hconn : s.connected = true) (hmiss : cache_pk_hit s.cache t = none)
    (hcat : (s.catalog.lookup t).getD [] = []) (hkeys : df.primary_keys = [])
    (hrows : df.nrows ≠ 0) :
    ((DuckDB.upsert_from_dataframe s t df).executed
      = s.executed ++ [.introspect (DuckDB.pragma_query t)]) ∧
    ((PostgresDB.upsert_from_dataframe s t df).executed
      = s.executed ++ [.introspect (PostgresDB.key_query t)]) := by
  constructor
  · have h1 := duck_gpk_miss s t hconn hmiss
    rw [hcat] at h1
    have hq : DuckDB.create_table_query t df = none := by
      simp [DuckDB.create_table_query, hkeys]
    have hct : DuckDB.create_table
        { s with
          cache := s.cache.put_pk t [],
          cache_file := some (.mk (s.cache.put_pk t [])),
          executed := s.executed ++ [.introspect (DuckDB.pragma_query t)] } t df
        = { s with
            cache := s.cache.put_pk t [],
            cache_file := some (.mk (s.cache.put_pk t [])),
            executed := s.executed ++ [.introspect (DuckDB.pragma_query t)] } := by
      unfold DuckDB.create_table
      rw [hq]
    have h2 := duck_gpk_hit
      { s with
        cache := s.cache.put_pk t [],
        cache_file := some (.mk (s.cache.put_pk t [])),
        executed := s.executed ++ [.introspect (DuckDB.pragma_query t)] } t []
      (cache_pk_hit_put_pk _ _ _)
    unfold DuckDB.upsert_from_dataframe
    rw [if_neg hrows, h1]
    simp only [pk_falsy, if_true, hct, h2]
  · have h1 := pg_gpk_miss s t hconn hmiss
    rw [hcat] at h1
    have hq : PostgresDB.create_table_query t df = none := by
      simp [PostgresDB.create_table_query, hkeys]
    have hct : PostgresDB.create_table
        { s with
          cache := s.cache.put_pk t [],
          cache_file := some (.mk (s.cache.put_pk t [])),
          executed := s.executed ++ [.introspect (PostgresDB.key_query t)] } t df
        = { s with
            cache := s.cache.put_pk t [],
            cache_file := some (.mk (s.cache.put_pk t [])),
            executed := s.executed ++ [.introspect (PostgresDB.key_query t)] } := by
      unfold PostgresDB.create_table
      rw [hq]
    have h2 := pg_gpk_hit
      { s with
        cache := s.cache.put_pk t [],
        cache_file := some (.mk (s.cache.put_pk t [])),
        executed := s.executed ++ [.introspect (PostgresDB.key_query t)] } t []
      (cache_pk_hit_put_pk _ _ _)
    unfold PostgresDB.upsert_from_dataframe
    rw [if_neg hrows, h1]
    simp only [pk_falsy, if_true, hct, h2]

/-- Witness for the amended C2 on a fresh connected adapter and a
keyless one-row batch: duckdb and postgres abandon the upsert with only
the catalog introspection submitted. -/
theorem C2_amended_duck_pg_abandon_witness :
    ((DuckDB.upsert_from_dataframe sLive "t" df_noindex).executed
      = [.introspect (DuckDB.pragma_query "t")]) ∧
    ((PostgresDB.upsert_from_dataframe sLive "t" df_noindex).executed
      = [.introspect (PostgresDB.key_query "t")]) :=
  ⟨(C2_amended_duck_pg_abandon sLive "t" df_noindex rfl rfl rfl rfl (by decide)).1,
   (C2_amended_duck_pg_abandon sLive "t" df_noindex rfl rfl rfl rfl (by decide)).2⟩

/-- With no cursor, a sqlite cache miss leaves the state untouched and
answers None: the introspection raises and the handler swallows it. -/
theorem sqlite_gpk_miss_not_connected (s : DBState) (t : String)
    (h : s.connected = false) (hmiss : cache_pk_hit s.cache t = none) :
    SQLiteDB.get_primary_key s t = (none, s) := by
  unfold SQLiteDB.get_primary_key
  rw [hmiss]
  simp [h]

/-- With no cursor, sqlite table creation is a no-op: either the
refusal returns early or the submission raises and is caught. -/
theorem sqlite_create_not_connected (s : DBState) (t : String) (df : DataFrame)
    (h : s.connected = false) :
    SQLiteDB.create_table s t df = s := by
  unfold SQLiteDB.create_table
  split
  · rfl
  · rw [if_neg (by simp [h])]

/-- C7 counterexample: on a degraded adapter whose connect step failed,
close is not a benign no-op: the unguarded cursor access raises an
attribute error. -/
theorem C7_counterexample_close_raises :
    SQLiteDB.close sDeg = .error .attributeError := rfl

/-- C7 amended: after a native connect failure the constructor
completes in a degraded state, and the subsequent public operations
upsert (both shapes), execute, query and clear_cache are benign no-ops
or absent results; close, however, accesses the never-assigned cursor
outside any handler and raises an attribute error instead of being a
no-op (the facade close delegates unguarded, so it raises too). -/
theorem C7_amended_degraded_ops (s : DBState) (tn cmd rt e : String) (df : DataFrame)
    (data : List (String × Dtype)) (h : s.connected = false) :
    (SQLiteDB.upsert_from_dataframe s tn df = s) ∧
    (SQLiteDB.upsert_from_dict s tn data = s) ∧
    (SQLiteDB.execute s cmd = s) ∧
    (SQLiteDB.query (.error e) rt = none) ∧
    (SQLiteDB.clear_cache s = { s with cache := [], cache_file := some (Blob.mk []) }) ∧
    (SQLiteDB.close s = .error .attributeError) := by
  refine ⟨?_, ?_, ?_, rfl, rfl, by simp [SQLiteDB.close, h]⟩
  · unfold SQLiteDB.upsert_from_dataframe
    split
    · rfl
    · cases hch : cache_pk_hit s.cache tn with
      | some pks =>
        rw [sqlite_gpk_hit s tn pks hch]
        cases hpf : pk_falsy (some pks) <;>
          simp [hpf, sqlite_create_not_connected s tn df h, h]
      | none =>
        rw [sqlite_gpk_miss_not_connected s tn h hch]
        simp [pk_falsy, sqlite_create_not_connected s tn df h, h]
  · unfold SQLiteDB.upsert_from_dict
    split
    · rfl
    · cases hch : cache_pk_hit s.cache tn with
      | some pks =>
        rw [sqlite_gpk_hit s tn pks hch]
        cases hpf : pk_falsy (some pks) <;>
          simp [hpf, sqlite_create_not_connected s tn (DataFrame.from_dict data) h, h]
      | none =>
        rw [sqlite_gpk_miss_not_connected s tn h hch]
        simp [pk_falsy, sqlite_create_not_connected s tn (DataFrame.from_dict data) h, h]
  · simp [SQLiteDB.execute, h]

/-- Witness for the amended C7 on a concrete degraded adapter: upsert
is a no-op and close raises. -/
theorem C7_amended_degraded_ops_witness :
    (SQLiteDB.upsert_from_dataframe sDeg "t" df_noindex = sDeg) ∧
    (SQLiteDB.close sDeg = .error .attributeError) :=
  ⟨(C7_amended_degraded_ops sDeg "t" "SELECT 1" "pandas" "err" df_noindex [] rfl).1,
   (C7_amended_degraded_ops sDeg "t" "SELECT 1" "pandas" "err" df_noindex [] rfl).2.2.2.2.2⟩

/-- With no cursor, a postgres cache miss leaves the state untouched
and answers None. -/
theorem pg_gpk_miss_not_connected (s : DBState) (t : String)
    (h : s.connected = false) (hmiss : cache_pk_hit s.cache t = none) :
    PostgresDB.get_primary_key s t = (none, s) := by
  unfold PostgresDB.get_primary_key
  rw [hmiss]
  simp [h]

/-- Appending an introspection call changes no CREATE TABLE entry of a
trace. -/
theorem filter_isCreate_append_introspect (l : List NativeCall) (q : String) :
    (l ++ [NativeCall.introspect q]).filter NativeCall.isCreate
      = l.filter NativeCall.isCreate := by
  simp [List.filter_append, NativeCall.isCreate]

/-- Appending an insert call changes no CREATE TABLE entry of a trace. -/
theorem filter_isCreate_append_insert (l : List NativeCall) (q : String) :
    (l ++ [NativeCall.insert q]).filter NativeCall.isCreate
      = l.filter NativeCall.isCreate := by
  simp [List.filter_append, NativeCall.isCreate]

/-- C10: the single-row dict upsert wraps its input in a one-row
DataFrame whose single index level has no name, so it designates no key
columns; table creation from it is therefore always refused in every
dialect, and neither the sqlite nor the postgres dict upsert ever
submits a CREATE TABLE statement, whatever the state: a dict input can
never cause a table to be created. -/
theorem C10_dict_upsert_never_creates :
    (∀ data, (DataFrame.from_dict data).primary_keys = []) ∧
    (∀ tn data, SQLiteDB.create_table_query tn (DataFrame.from_dict data) = none) ∧
    (∀ tn data, DuckDB.create_table_query tn (DataFrame.from_dict data) = none) ∧
    (∀ tn data, PostgresDB.create_table_query tn (DataFrame.from_dict data) = none) ∧
    (∀ s tn data, (SQLiteDB.upsert_from_dict s tn data).executed.filter NativeCall.isCreate
      = s.executed.filter NativeCall.isCreate) ∧
    (∀ s tn data, (PostgresDB.upsert_from_dict s tn data).executed.filter NativeCall.isCreate
      = s.executed.filter NativeCall.isCreate) := by
  refine ⟨fun data => rfl, fun tn data => rfl, fun tn data => rfl, fun tn data => rfl,
    ?_, ?_⟩
  · intro s tn data
    have hcreate : ∀ s2, SQLiteDB.create_table s2 tn (DataFrame.from_dict data) = s2 := by
      intro s2
      unfold SQLiteDB.create_table
      rfl
    unfold SQLiteDB.upsert_from_dict
    split
    · rfl
    · cases hch : cache_pk_hit s.cache tn with
      | some pks =>
        rw [sqlite_gpk_hit s tn pks hch]
        cases hpf : pk_falsy (some pks) <;> cases hc : s.connected <;>
          simp [hpf, hc, hcreate, filter_isCreate_append_insert, NativeCall.isCreate]
      | none =>
        cases hc : s.connected
        · rw [sqlite_gpk_miss_not_connected s tn hc hch]
          simp [pk_falsy, hcreate, hc]
        · rw [sqlite_gpk_miss s tn hc hch]
          cases hpf : pk_falsy (some ((s.catalog.lookup tn).getD [])) <;>
            simp [hpf, hc, hcreate, filter_isCreate_append_insert,
              filter_isCreate_append_introspect, NativeCall.isCreate]
  · intro s tn data
    have hcreate : ∀ s2, PostgresDB.create_table s2 tn (DataFrame.from_dict data) = s2 := by
      intro s2
      unfold PostgresDB.create_table
      rfl
    unfold PostgresDB.upsert_from_dict
    split
    · rfl
    · cases hch : cache_pk_hit s.cache tn with
      | some pks =>
        have hr1 := pg_gpk_hit s tn pks hch
        cases pks with
        | nil => simp [hr1, pk_falsy, hcreate]
        | cons c cs =>
          cases hc : s.connected <;>
            simp [hr1, pk_falsy, hcreate, hc, filter_isCreate_append_insert,
              NativeCall.isCreate]
      | none =>
        cases hc : s.connected
        · have hr1 := pg_gpk_miss_not_connected s tn hc hch
          simp [hr1, pk_falsy, hcreate]
        · have hr1 := pg_gpk_miss s tn hc hch
          have hr2 := pg_gpk_hit
            { s with
              cache := s.cache.put_pk tn ((s.catalog.lookup tn).getD []),
              cache_file := some (.mk (s.cache.put_pk tn ((s.catalog.lookup tn).getD []))),
              executed := s.executed ++ [.introspect (PostgresDB.key_query tn)] } tn
            ((s.catalog.lookup tn).getD []) (cache_pk_hit_put_pk _ _ _)
          cases hdisc : (s.catalog.lookup tn).getD [] with
          | nil =>
            rw [hdisc] at hr1 hr2
            rw [hc] at hr2
            simp [hr1, hr2, pk_falsy, hcreate, hc, filter_isCreate_append_introspect,
              NativeCall.isCreate]
          | cons c cs =>
            rw [hdisc] at hr1 hr2
            rw [hc] at hr2
            simp [hr1, hr2, pk_falsy, hcreate, hc, filter_isCreate_append_insert,
              filter_isCreate_append_introspect, NativeCall.isCreate]

/-- The inline PRIMARY KEY loop of the postgres synthesizer is the
identity when no designated key column is a data column. -/
theorem pg_inline_fold_id (pks cn : List String) (h : ∀ pk ∈ pks, pk ∉ cn) :
    ∀ acc, pks.foldl (fun acc pk =>
      if cn.contains pk then
        set_at_append acc (cn.findIdx (fun c => c == pk)) " PRIMARY KEY"
      else acc) acc = acc := by
  induction pks with
  | nil => intro acc; rfl
  | cons p ps ih =>
    intro acc
    rw [List.foldl_cons, if_neg (by simp [h p (List.mem_cons_self p ps)])]
    exact ih (fun pk hm => h pk (List.mem_cons_of_mem p hm)) acc

/-- C5: for every batch with designated key columns, each dialect maps
int64 to INTEGER, float64 to REAL (sqlite), DOUBLE (duckdb) or FLOAT
(postgres), and every other dtype to TEXT or VARCHAR; the designated
key columns form the trailing PRIMARY KEY clause of the synthesized
statement; and every key column not among the data columns is appended
as an additional TEXT or VARCHAR column. The postgres equation is
stated for key columns outside the data columns, where its inline
PRIMARY KEY loop does nothing. -/
theorem C5_create_table_synthesis (tn : String) (df : DataFrame)
    (hpk : df.primary_keys ≠ [])
    (hdisj : ∀ pk ∈ df.primary_keys, pk ∉ df.col_names) :
    (SQLiteDB.create_table_query tn df
      = some ("CREATE TABLE " ++ tn ++ " ("
        ++ joinComma ((df.columns.map fun c => c.1 ++ " " ++ sqlite_col_type c.2)
          ++ ((df.primary_keys.filter fun pk => ! df.col_names.contains pk).map
            fun pk => pk ++ " TEXT"))
        ++ ", PRIMARY KEY (" ++ joinComma df.primary_keys ++ "));")) ∧
    (DuckDB.create_table_query tn df
      = some ("CREATE TABLE " ++ tn ++ " ("
        ++ joinComma ((df.columns.map fun c => c.1 ++ " " ++ duck_col_type c.2)
          ++ ((df.primary_keys.filter fun pk => ! df.col_names.contains pk).map
            fun pk => pk ++ " VARCHAR"))
        ++ ", PRIMARY KEY (" ++ joinComma df.primary_keys ++ "));")) ∧
    (PostgresDB.create_table_query tn df
      = some ("CREATE TABLE " ++ tn ++ " ("
        ++ joinComma ((df.columns.map fun c => c.1 ++ " " ++ pg_col_type c.2)
          ++ ((df.primary_keys.filter fun pk => ! df.col_names.contains pk).map
            fun pk => pk ++ " TEXT"))
        ++ ", PRIMARY KEY (" ++ joinComma df.primary_keys ++ "));")) ∧
    (sqlite_col_type .int64 = "INTEGER" ∧ sqlite_col_type .float64 = "REAL" ∧
      ∀ d, d ≠ .int64 → d ≠ .float64 → sqlite_col_type d = "TEXT") ∧
    (duck_col_type .int64 = "INTEGER" ∧ duck_col_type .float64 = "DOUBLE" ∧
      ∀ d, d ≠ .int64 → d ≠ .float64 → duck_col_type d = "VARCHAR") ∧
    (pg_col_type .int64 = "INTEGER" ∧ pg_col_type .float64 = "FLOAT" ∧
      ∀ d, d ≠ .int64 → d ≠ .float64 → pg_col_type d = "TEXT") := by
  refine ⟨?_, ?_, ?_, ⟨rfl, rfl, ?_⟩, ⟨rfl, rfl, ?_⟩, ⟨rfl, rfl, ?_⟩⟩
  · simp [SQLiteDB.create_table_query, hpk]
  · simp [DuckDB.create_table_query, hpk]
  · simp only [PostgresDB.create_table_query]
    rw [if_neg hpk, pg_inline_fold_id _ _ hdisj]
  · intro d h1 h2
    cases d <;> simp_all [sqlite_col_type]
  · intro d h1 h2
    cases d <;> simp_all [duck_col_type]
  · intro d h1 h2
    cases d <;> simp_all [pg_col_type]

/-- Witness for C5 on a concrete keyed batch with one column of each
inferred type and the key column absent from the data columns. -/
theorem C5_create_table_synthesis_witness :
    SQLiteDB.create_table_query "t1" df_keyed
      = some "CREATE TABLE t1 (a INTEGER, b REAL, c TEXT, id TEXT, PRIMARY KEY (id));" ∧
    DuckDB.create_table_query "t1" df_keyed
      = some "CREATE TABLE t1 (a INTEGER, b DOUBLE, c VARCHAR, id VARCHAR, PRIMARY KEY (id));" ∧
    PostgresDB.create_table_query "t1" df_keyed
      = some "CREATE TABLE t1 (a INTEGER, b FLOAT, c TEXT, id TEXT, PRIMARY KEY (id));" := by
  refine ⟨?_, ?_, ?_⟩
  · rw [(C5_create_table_synthesis "t1" df_keyed (by decide) (by decide)).1]
    rfl
  · rw [(C5_create_table_synthesis "t1" df_keyed (by decide) (by decide)).2.1]
    rfl
  · rw [(C5_create_table_synthesis "t1" df_keyed (by decide) (by decide)).2.2.1]
    rfl

/-- C1: for every table with a determinable primary key, upserting two
batch rows carrying the same key value leaves exactly one row for that
key whose non-key columns reflect the second row; the file-embedded
dialect builds INSERT OR REPLACE, under whose semantics the surviving
row is rebuilt from the second statement alone, so columns it does not
name revert to the null default; the other two dialects build INSERT
... ON CONFLICT (key columns) DO UPDATE SET col=EXCLUDED.col over
exactly the non-key columns, under whose semantics the surviving row is
the first row updated on exactly those columns, every unnamed column
left untouched. -/
theorem C1_upsert_same_key_twice (T : SQLTable) (cols1 cols2 conflict : List String)
    (vals1 vals2 : List Value)
    (hpk : T.pk ≠ [])
    (hconf : conflict = T.pk)
    (hkey : key_of T.pk (mk_row T.cols cols1 vals1) = key_of T.pk (mk_row T.cols cols2 vals2))
    (hfresh : T.rows.filter
      (fun r => key_of T.pk r == key_of T.pk (mk_row T.cols cols2 vals2)) = []) :
    (∀ tn cs, SQLiteDB.insert_statement tn cs =
      "INSERT OR REPLACE INTO " ++ tn ++ " (" ++ joinComma cs ++ ") VALUES (" ++
        placeholders cs.length ++ ")") ∧
    (∀ tn cs cc, DuckDB.insert_statement tn cs cc =
      "INSERT INTO " ++ tn ++ " (" ++ joinComma cs ++ ") VALUES (" ++
        placeholders cs.length ++ ") ON CONFLICT (" ++ joinComma cc ++
        ") DO UPDATE SET " ++
        joinComma ((cs.filter fun c => ! cc.contains c).map fun c => c ++ "=excluded." ++ c)
        ++ ";") ∧
    (∀ tn fs cs cc, PostgresDB.insert_statement_values tn fs cs cc =
      "INSERT INTO " ++ quote_ident tn ++ " (" ++
        String.intercalate "," (fs.map quote_ident) ++
        ") VALUES %s ON CONFLICT (" ++
        String.intercalate ", " (cc.map quote_ident) ++
        ") DO UPDATE SET " ++
        String.intercalate ", " ((cs.filter fun c => ! cc.contains c).map
          fun c => quote_ident c ++ " = EXCLUDED." ++ quote_ident c)) ∧
    ((exec_insert_or_replace (exec_insert_or_replace T cols1 vals1) cols2 vals2).rows.filter
      (fun r => key_of T.pk r == key_of T.pk (mk_row T.cols cols2 vals2))
      = [mk_row T.cols cols2 vals2]) ∧
    (∀ c, c ∈ T.cols → (cols2.zip vals2).lookup c = none →
      (mk_row T.cols cols2 vals2).lookup c = some .null) ∧
    (∀ c v, c ∈ T.cols → (cols2.zip vals2).lookup c = some v →
      (mk_row T.cols cols2 vals2).lookup c = some v) ∧
    ((exec_on_conflict_update (exec_on_conflict_update T cols1 vals1 conflict) cols2 vals2
        conflict).rows.filter
      (fun r => key_of T.pk r == key_of T.pk (mk_row T.cols cols2 vals2))
      = [update_row (mk_row T.cols cols1 vals1) (cols2.zip vals2)
          (cols2.filter fun c => ! conflict.contains c)]) ∧
    (∀ (r : Row) inc u c, c ∉ u → (update_row r inc u).lookup c = r.lookup c) ∧
    (∀ (r : Row) inc u c w, c ∈ u → inc.lookup c = some w → (r.lookup c).isSome = true →
      (update_row r inc u).lookup c = some w) := by
  have hforall : ∀ r ∈ T.rows,
      (key_of T.pk r == key_of T.pk (mk_row T.cols cols2 vals2)) = false := by
    intro r hr
    have := List.filter_eq_nil_iff.mp hfresh r hr
    simpa using this
  refine ⟨fun tn cs => rfl, fun tn cs cc => rfl, fun tn fs cs cc => rfl, ?_, ?_, ?_, ?_,
    fun r inc u c h => lookup_update_row_not_mem r inc u c h,
    fun r inc u c w hu hw hr => lookup_update_row_mem r inc u c w hu hw hr⟩
  · simp only [exec_insert_or_replace]
    rw [List.filter_append, filter_not_filter]
    simp
  · intro c hc hnone
    rw [lookup_mk_row _ _ _ _ hc, hnone]
    rfl
  · intro c v hc hsome
    rw [lookup_mk_row _ _ _ _ hc, hsome]
    rfl
  · have hdisjk : ∀ k ∈ T.pk, k ∉ (cols2.filter fun c => ! conflict.contains c) := by
      intro k hk hmem
      have h2 := (List.mem_filter.mp hmem).2
      rw [hconf] at h2
      simp at h2
      exact h2 hk
    have hany1 : (T.rows.any
        fun r => key_of T.pk r == key_of T.pk (mk_row T.cols cols1 vals1)) = false := by
      rw [List.any_eq_false]
      intro r hr
      rw [hkey]
      simp [hforall r hr]
    have ht1 : exec_on_conflict_update T cols1 vals1 conflict
        = { T with rows := T.rows ++ [mk_row T.cols cols1 vals1] } := by
      unfold exec_on_conflict_update
      simp [hany1]
    have hany2 : ((T.rows ++ [mk_row T.cols cols1 vals1]).any
        fun r => key_of T.pk r == key_of T.pk (mk_row T.cols cols2 vals2)) = true := by
      rw [List.any_append]
      simp [hkey]
    have ht2 : exec_on_conflict_update { T with rows := T.rows ++ [mk_row T.cols cols1 vals1] }
          cols2 vals2 conflict
        = { T with
            rows := (T.rows ++ [mk_row T.cols cols1 vals1]).map
              (fun r =>
                if key_of T.pk r == key_of T.pk (mk_row T.cols cols2 vals2) then
                  update_row r (cols2.zip vals2) (cols2.filter fun c => ! conflict.contains c)
                else r) } := by
      unfold exec_on_conflict_update
      simp [hany2]
    have hpres : ∀ r : Row,
        (key_of T.pk
          (if (key_of T.pk r == key_of T.pk (mk_row T.cols cols2 vals2)) = true then
            update_row r (cols2.zip vals2) (cols2.filter fun c => ! conflict.contains c)
          else r) == key_of T.pk (mk_row T.cols cols2 vals2))
        = (key_of T.pk r == key_of T.pk (mk_row T.cols cols2 vals2)) := by
      intro r
      by_cases hr : (key_of T.pk r == key_of T.pk (mk_row T.cols cols2 vals2)) = true
      · rw [if_pos hr, key_of_update_row _ _ _ _ hdisjk]
      · rw [if_neg hr]
    rw [ht1, ht2]
    rw [filter_map_comm _ _ _ hpres, List.filter_append, hfresh]
    have hp1 : (key_of T.pk (mk_row T.cols cols1 vals1)
        == key_of T.pk (mk_row T.cols cols2 vals2)) = true := by
      simp [hkey]
    simp [hp1, hkey]

/-- A concrete empty table keyed on id with two data columns. -/
def Tc : SQLTable := { cols := ["id", "a", "b"], pk := ["id"], rows := [] }

/-- Witness for C1: on the concrete table, inserting the key 5 and then
upserting it again leaves exactly one row for that key under both
statement semantics, with the stated shape. -/
theorem C1_upsert_same_key_twice_witness :
    ((exec_insert_or_replace (exec_insert_or_replace Tc ["id", "a", "b"]
        [.int 5, .str "x1", .str "y1"]) ["id", "a"] [.int 5, .str "X"]).rows.filter
      (fun r => key_of Tc.pk r
        == key_of Tc.pk (mk_row Tc.cols ["id", "a"] [.int 5, .str "X"]))
      = [mk_row Tc.cols ["id", "a"] [.int 5, .str "X"]]) ∧
    ((exec_on_conflict_update (exec_on_conflict_update Tc ["id", "a", "b"]
        [.int 5, .str "x1", .str "y1"] ["id"]) ["id", "a"] [.int 5, .str "X"]
        ["id"]).rows.filter
      (fun r => key_of Tc.pk r
        == key_of Tc.pk (mk_row Tc.cols ["id", "a"] [.int 5, .str "X"]))
      = [update_row (mk_row Tc.cols ["id", "a", "b"] [.int 5, .str "x1", .str "y1"])
          (["id", "a"].zip [.int 5, .str "X"])
          (["id", "a"].filter fun c => ! ["id"].contains c)]) :=
  ⟨(C1_upsert_same_key_twice Tc ["id", "a", "b"] ["id", "a"] ["id"]
      [.int 5, .str "x1", .str "y1"] [.int 5, .str "X"]
      (by decide) rfl (by decide) rfl).2.2.2.1,
   (C1_upsert_same_key_twice Tc ["id", "a", "b"] ["id", "a"] ["id"]
      [.int 5, .str "x1", .str "y1"] [.int 5, .str "X"]
      (by decide) rfl (by decide) rfl).2.2.2.2.2.2.1⟩
